import Mathlib

/-!
# Verification of the everest orchestration core against its specification

Shallow embedding of the validation, translation and session-control logic of
the everest repository.  Python floats are modelled as rationals (`ℚ`), Python
`None`-able values as `Option`, and raising code as `Except`-returning
functions.  Each definition mirrors one Python function or one spec-described
component; theorems at the end settle the specification claims.
-/

namespace Everest

/-! ## CVaR configuration (src/everest/config/cvar_config.py) -/

/-- The message of the `ValueError` raised by
`CVaRConfig.validate_mutex_nreals_percentile`. -/
def cvarMutexError : String :=
  "Invalid CVaR section; Specify only one of the" ++
  " following: number_of_realizations, percentile"

/-- Pydantic's message for a violated `ge=0.0` field bound. -/
def geZeroError : String := "Input should be greater than or equal to 0"

/-- Pydantic's message for a violated `le=1.0` field bound. -/
def leOneError : String := "Input should be less than or equal to 1"

/-- A validated CVaR section: `number_of_realizations : Optional[int]`,
`percentile : Optional[float]`. -/
structure CVaRConfig where
  number_of_realizations : Option Int
  percentile : Option ℚ
  deriving DecidableEq, Repr

/-- `CVaRConfig.validate_mutex_nreals_percentile` (a `mode="before"` model
validator): raises unless exactly one of `number_of_realizations`,
`percentile` is set, otherwise passes the raw values through. -/
def validate_mutex_nreals_percentile (nreals : Option Int) (percentile : Option ℚ) :
    Except String (Option Int × Option ℚ) :=
  let has_nreals := nreals.isSome
  let has_percentile := percentile.isSome
  if !(has_nreals.xor has_percentile) then
    Except.error cvarMutexError
  else
    Except.ok (nreals, percentile)

/-- Pydantic field validation of `percentile` against its
`ge=0.0, le=1.0` bounds (`number_of_realizations` carries no bounds). -/
def validatePercentileField (p : Option ℚ) : Except String (Option ℚ) :=
  match p with
  | none => Except.ok none
  | some q =>
    if q < 0 then Except.error geZeroError
    else if 1 < q then Except.error leOneError
    else Except.ok (some q)

/-- Full pydantic validation of a raw CVaR section: the `mode="before"` model
validator runs first, then field validation. -/
def CVaRConfig.validate (nreals : Option Int) (percentile : Option ℚ) :
    Except String CVaRConfig :=
  match validate_mutex_nreals_percentile nreals percentile with
  | Except.error e => Except.error e
  | Except.ok (n, p) =>
    match validatePercentileField p with
    | Except.error e => Except.error e
    | Except.ok p => Except.ok ⟨n, p⟩

/-- A raw CVaR section is accepted when full validation returns a config. -/
def cvarAccepted (nreals : Option Int) (percentile : Option ℚ) : Bool :=
  match CVaRConfig.validate nreals percentile with
  | Except.ok _ => true
  | Except.error _ => false

/-! ## Objective-function validation

Modelled from the spec: the `ObjectiveFunctionConfig` model and the
`EverestConfig.lint_config_dict` aggregation are not part of the sources under
review (only `tests/test_multiobjective.py` exercises them), so they are
modelled from spec §3/§4.1, with each error message taken from the assertions
of `test_config_multi_objectives`. -/

/-- One raw objective-function entry: `name` is a required field (absent in
raw input when the user omitted it), `weight` and `normalization` optional. -/
structure RawObjective where
  name : Option String
  weight : Option ℚ
  normalization : Option ℚ
  deriving DecidableEq, Repr

/-- Pydantic's message for a missing required field. -/
def fieldRequiredError : String := "Field required"

/-- Pydantic's message for a violated `gt=0` bound on `weight`. -/
def gtZeroError : String := "Input should be greater than 0"

/-- The zero-normalization rejection message asserted by
`test_config_multi_objectives`. -/
def zeroNormError : String := "Normalization value cannot be zero"

/-- The all-or-nothing weight rejection message asserted by
`test_config_multi_objectives`. -/
def weightAllOrNoneError : String :=
  "Weight should be given either for all of the" ++
  " objectives or for none of them"

/-- Modelled from the spec: per-objective field validation (§4.1 item 1 and
the per-objective cross-field invariants) — `name` required, `weight > 0`
when present, `normalization ≠ 0` when present; every violated check
contributes its error. -/
def objectiveFieldErrors (o : RawObjective) : List String :=
  (if o.name.isNone then [fieldRequiredError] else []) ++
  (match o.weight with
   | some w => if w ≤ 0 then [gtZeroError] else []
   | none => []) ++
  (match o.normalization with
   | some n => if n = 0 then [zeroNormError] else []
   | none => [])

/-- Modelled from the spec: the all-or-nothing weight invariant across the
objective list (§4.1 item 2) — an error when some but not all objectives
declare a weight. -/
def weightAllOrNoneErrors (objs : List RawObjective) : List String :=
  if objs.any (fun o => o.weight.isSome) && objs.any (fun o => o.weight.isNone) then
    [weightAllOrNoneError]
  else
    []

/-- Modelled from the spec: validation of the objective-function list,
returning the full list of violations (§4.1: "Validation returns all
violations found, not just the first"). -/
def lint_objective_functions (objs : List RawObjective) : List String :=
  weightAllOrNoneErrors objs ++ (objs.map objectiveFieldErrors).flatten

/-- A raw configuration as far as the claims need it: an optional CVaR
section (its raw field values) and the objective-function list. -/
structure RawConfig where
  cvar : Option (Option Int × Option ℚ)
  objective_functions : List RawObjective
  deriving DecidableEq, Repr

/-- Errors contributed by the CVaR section, when one is present. -/
def cvarSectionErrors : Option (Option Int × Option ℚ) → List String
  | none => []
  | some (n, p) =>
    match CVaRConfig.validate n p with
    | Except.ok _ => []
    | Except.error e => [e]

/-- Modelled from the spec: `EverestConfig.lint_config_dict` — validation of
a raw configuration returning the list of all violations found. -/
def lint_config_dict (c : RawConfig) : List String :=
  cvarSectionErrors c.cvar ++ lint_objective_functions c.objective_functions

/-! ## Translation to the optimizer engine

Modelled from the spec: `everest2ropt` is not part of the sources under
review (only `tests/test_multiobjective.py` exercises it), so the objective
part of the translation is modelled from spec §4.2. -/

/-- A validated objective as the translator receives it: `name` is present
(validation guarantees it), `weight` and `normalization` may be absent. -/
structure ValidObjective where
  name : String
  weight : Option ℚ
  normalization : Option ℚ
  deriving DecidableEq, Repr, Inhabited

/-- The objective slice of the engine-ready configuration: parallel,
index-aligned lists of names, normalized weights and scales. -/
structure RoptObjectives where
  names : List String
  weights : List ℚ
  scales : List ℚ
  deriving DecidableEq, Repr

/-- Modelled from the spec: the objective part of `everest2ropt` (§4.2) —
when all objectives declare a weight, objective `i` gets weight
`w_i / Σ w_j`, order-preserving; otherwise an equal split; the scale is the
declared `normalization` when present, else the neutral default `1`. -/
def everest2ropt (objs : List ValidObjective) : RoptObjectives :=
  let weights :=
    if objs.all (fun o => o.weight.isSome) then
      let total := (objs.map (fun o => o.weight.getD 0)).sum
      objs.map (fun o => o.weight.getD 0 / total)
    else
      objs.map (fun _ => 1 / (objs.length : ℚ))
  { names := objs.map (fun o => o.name)
    weights := weights
    scales := objs.map (fun o => o.normalization.getD 1) }

/-! ## Session controller (src/everest/bin/everest_script.py) -/

/-- Server lifecycle states, as in `everest.detached.ServerStatus`. -/
inductive ServerStatus where
  | never_run
  | starting
  | running
  | completed
  | failed
  | stopped
  deriving DecidableEq, Repr

/-- The persisted status record as `everserver_status` returns it:
a status and an optional message. -/
structure StatusRecord where
  status : ServerStatus
  message : Option String
  deriving DecidableEq, Repr

/-- The command-line options of `everest run` that `run_everest` consults. -/
structure RunOptions where
  kill : Bool
  new_run : Bool
  config_file : String
  deriving DecidableEq, Repr

/-- How the invocation terminates: a normal return, or a raised
`SystemExit` carrying the stored server message. -/
inductive ExitOutcome where
  | normal
  | systemExit (message : Option String)
  deriving DecidableEq, Repr

/-- The observable effects of one `run_everest` invocation. -/
structure RunEffects where
  printed : List String
  statusQueried : Bool
  spawned : Bool
  record : StatusRecord
  outcome : ExitOutcome
  deriving DecidableEq, Repr

/-- The environment one invocation runs in: whether `server_is_running`
answers true, the current status record, and the record observed after a
launched run finishes (`_run_everest` and the detached server determine it). -/
structure SessionWorld where
  serverRunning : Bool
  record : StatusRecord
  postRunRecord : StatusRecord
  deriving DecidableEq, Repr

/-- The message printed by `_kill_everest` for the removed `--kill` flag. -/
def deprecationMsg (config_file : String) : String :=
  "The `everest run --kill` option has been removed.\n" ++
  "To kill the running optimization use command:\n" ++
  "  `everest kill " ++ config_file ++ "`"

/-- The message `run_everest` prints when the server is already running. -/
def alreadyRunningMsg (config_file : String) : String :=
  "An optimization is currently running.\n" ++
  "To monitor the running optimization use command:\n" ++
  "  `everest monitor " ++ config_file ++ "`\n" ++
  "To kill the running optimization use command:\n" ++
  "  `everest kill " ++ config_file ++ "`"

/-- `run_everest` as an effect-summarising function:
the `--kill` branch returns before any status query; a running server is
reported with monitor/kill hints; a `never_run` status or `--new-run` flag
launches a fresh run (`_run_everest` prints the two wait messages) and then
re-reads the record — `failed` raises `SystemExit` with the stored message,
otherwise a present message is printed; any other case reports the
previous run. -/
def run_everest (options : RunOptions) (w : SessionWorld) : RunEffects :=
  if options.kill then
    { printed := [deprecationMsg options.config_file]
      statusQueried := false
      spawned := false
      record := w.record
      outcome := ExitOutcome.normal }
  else if w.serverRunning then
    { printed := [alreadyRunningMsg options.config_file]
      statusQueried := true
      spawned := false
      record := w.record
      outcome := ExitOutcome.normal }
  else if w.record.status = ServerStatus.never_run || options.new_run then
    let s := w.postRunRecord
    if s.status = ServerStatus.failed then
      { printed := ["Waiting for server ...", "Everest server found!"]
        statusQueried := true
        spawned := true
        record := s
        outcome := ExitOutcome.systemExit s.message }
    else
      match s.message with
      | some info =>
        { printed := ["Waiting for server ...", "Everest server found!", info]
          statusQueried := true
          spawned := true
          record := s
          outcome := ExitOutcome.normal }
      | none =>
        { printed := ["Waiting for server ...", "Everest server found!"]
          statusQueried := true
          spawned := true
          record := s
          outcome := ExitOutcome.normal }
  else
    { printed := []
      statusQueried := true
      spawned := false
      record := w.record
      outcome := ExitOutcome.normal }

/-! ## Forward-model file parsing (src/everest/util/forward_models.py) -/

/-- One entry of a pydantic `ValidationError.errors()` list, as the fields
the formatter reads: `loc[0]`, `input` and `msg` (already rendered). -/
structure PydanticErrorDetail where
  loc0 : String
  input : String
  msg : String
  deriving DecidableEq, Repr

/-- The outcome of the `parse_forward_model_schema` plugin hook call:
a result list, or a raised pydantic `ValidationError`, or a raised
`ValueError`. -/
inductive HookResult (α : Type) where
  | ok (res : List α)
  | validationError (errors : List PydanticErrorDetail)
  | valueError (msg : String)
  deriving DecidableEq, Repr

/-- A Python exception escaping `parse_forward_model_file`. -/
inductive PyException where
  | valueError (msg : String)
  | validationError (errors : List PydanticErrorDetail)
  deriving DecidableEq, Repr

/-- The f-string rendering of one pydantic error detail. -/
def formatDetail (e : PydanticErrorDetail) : String :=
  e.loc0 ++ ": " ++ e.input ++ " -> " ++ e.msg

/-- Python's `message.format(error=err)` on the caller's template. -/
def formatTemplate (message err : String) : String :=
  message.replace "{error}" err

/-- `parse_forward_model_file`, with the plugin hook call replaced by its
outcome: on success `res.pop()` drops the last element of a non-empty list
and the list is returned; a raised `ValidationError` is re-raised as a
`ValueError` built from the template and the joined error details; a raised
`ValueError` is re-raised as a `ValueError` built from the template and its
message. -/
def parse_forward_model_file (hookOutcome : HookResult α) (message : String) :
    Except PyException (List α) :=
  match hookOutcome with
  | HookResult.ok res =>
    Except.ok (if res.isEmpty then res else res.dropLast)
  | HookResult.validationError ve =>
    Except.error (PyException.valueError (formatTemplate message
      (String.intercalate "\n\t\t" (ve.map formatDetail))))
  | HookResult.valueError m =>
    Except.error (PyException.valueError (formatTemplate message m))

/-! ## Example inputs used by witnesses -/

/-- A raw configuration holding several simultaneous violations: a CVaR
section with both exclusive options set, a weight on one objective but not
the other, a zero normalization and a missing name. -/
def multiViolationConfig : RawConfig :=
  { cvar := some (some 5, some (1/2))
    objective_functions :=
      [⟨some "distance_p", some 1, some 0⟩, ⟨none, none, none⟩] }

/-- The two-objective example of `test_multi_objectives2ropt`: weights
`1.33` and `3.1`, the first objective with normalization `1`. -/
def exampleObjectives : List ValidObjective :=
  [⟨"distance_p", some (133/100), some 1⟩, ⟨"distance_q", some (31/10), none⟩]

/-! ## Theorems -/

/-- C1: for every CVaR risk-measure specification (its `percentile`, when
set, lying in the declared `[0, 1]` range), validation rejects it when both
or neither of `number_of_realizations` and `percentile` are set, and accepts
it exactly when one of the two is set. -/
theorem cvar_accept_iff_exactly_one (nreals : Option Int) (percentile : Option ℚ)
    (hrange : ∀ q : ℚ, percentile = some q → 0 ≤ q ∧ q ≤ 1) :
    cvarAccepted nreals percentile = (nreals.isSome.xor percentile.isSome) := by
  cases nreals with
  | none =>
    cases percentile with
    | none => rfl
    | some q =>
      obtain ⟨h0, h1⟩ := hrange q rfl
      simp [cvarAccepted, CVaRConfig.validate, validate_mutex_nreals_percentile,
        validatePercentileField, Except.bind, not_lt.mpr h0, not_lt.mpr h1]
  | some n =>
    cases percentile with
    | none => rfl
    | some q => rfl

/-- Witness for C1 at the concrete input `percentile = 1/2`, no
`number_of_realizations`: exactly one option set, accepted. -/
theorem cvar_accept_iff_exactly_one_witness :
    cvarAccepted none (some (1/2 : ℚ)) = true := by
  have h := cvar_accept_iff_exactly_one none (some (1/2 : ℚ))
    (by intro q hq; rw [Option.some_inj] at hq; subst hq; constructor <;> norm_num)
  simpa using h

/-- C6: the CVaR exclusive-or check runs before percentile field validation —
when both options are set and the percentile is outside `[0, 1]`, validation
reports the mutual-exclusion error, which differs from either range error. -/
theorem cvar_mutex_before_range (n : Int) (q : ℚ) (_hout : q < 0 ∨ 1 < q) :
    CVaRConfig.validate (some n) (some q) = Except.error cvarMutexError ∧
    cvarMutexError ≠ geZeroError ∧ cvarMutexError ≠ leOneError :=
  ⟨rfl, by decide, by decide⟩

/-- Witness for C6 at `number_of_realizations = 5`, `percentile = 2`. -/
theorem cvar_mutex_before_range_witness :
    CVaRConfig.validate (some 5) (some 2) = Except.error cvarMutexError ∧
    cvarMutexError ≠ geZeroError ∧ cvarMutexError ≠ leOneError :=
  cvar_mutex_before_range 5 2 (Or.inr (by norm_num))

/-- Every per-objective field error is one of the three fixed messages. -/
theorem objectiveFieldErrors_cases (o : RawObjective) :
    ∀ e ∈ objectiveFieldErrors o,
      e = fieldRequiredError ∨ e = gtZeroError ∨ e = zeroNormError := by
  rcases o with ⟨n, w, z⟩
  intro e he
  simp only [objectiveFieldErrors, List.mem_append] at he
  rcases he with (h | h) | h
  · cases n <;> simp_all
  · cases w with
    | none => simp at h
    | some w => split at h <;> simp_all
  · cases z with
    | none => simp at h
    | some z => split at h <;> simp_all

/-- Counterexample for C2: on the objective list whose first objective
declares a weight and whose second does not, validation rejects with the
message "Weight should be given either for all of the objectives or for none
of them" — not the message the claim states. -/
theorem partial_weight_message_counterexample :
    lint_objective_functions
        [⟨some "distance_p", some 1, none⟩, ⟨some "distance_q", none, none⟩] =
      [weightAllOrNoneError] ∧
    "weight must be given either for all of the objectives or for none" ∉
      lint_objective_functions
        [⟨some "distance_p", some 1, none⟩, ⟨some "distance_q", none, none⟩] :=
  ⟨by decide, by decide⟩

/-- C2 (amended): validation emits the error "Weight should be given either
for all of the objectives or for none of them" exactly when some but not all
objectives of the list declare a weight. -/
theorem weight_all_or_none_check (objs : List RawObjective) :
    weightAllOrNoneError ∈ lint_objective_functions objs ↔
      ((∃ o ∈ objs, o.weight.isSome = true) ∧ ∃ o ∈ objs, o.weight = none) := by
  have hfield : weightAllOrNoneError ∉ (objs.map objectiveFieldErrors).flatten := by
    intro hmem
    rcases List.mem_flatten.mp hmem with ⟨l, hl, hel⟩
    rcases List.mem_map.mp hl with ⟨o, _, rfl⟩
    rcases objectiveFieldErrors_cases o _ hel with h | h | h <;> revert h <;> decide
  unfold lint_objective_functions weightAllOrNoneErrors
  rw [List.mem_append]
  constructor
  · rintro (h | h)
    · split_ifs at h with hc
      · simp only [Bool.and_eq_true, List.any_eq_true] at hc
        obtain ⟨⟨o1, ho1, hw1⟩, ⟨o2, ho2, hw2⟩⟩ := hc
        exact ⟨⟨o1, ho1, hw1⟩, ⟨o2, ho2, Option.isNone_iff_eq_none.mp hw2⟩⟩
      · simp at h
    · exact absurd h hfield
  · rintro ⟨⟨o1, ho1, hw1⟩, ⟨o2, ho2, hw2⟩⟩
    left
    have hc : ((objs.any fun o => o.weight.isSome) &&
        (objs.any fun o => o.weight.isNone)) = true := by
      simp only [Bool.and_eq_true, List.any_eq_true]
      exact ⟨⟨o1, ho1, hw1⟩, ⟨o2, ho2, by simp [hw2]⟩⟩
    rw [if_pos hc]
    exact List.mem_singleton.mpr rfl

/-- C7: the zero-normalization check fires on an objective declaring
normalization `n` exactly when `n = 0` — zero is rejected, any nonzero
value, negative ones included, passes the check. -/
theorem normalization_zero_iff_rejected (name : Option String) (w : Option ℚ)
    (n : ℚ) :
    zeroNormError ∈ objectiveFieldErrors ⟨name, w, some n⟩ ↔ n = 0 := by
  have h1 : zeroNormError ≠ fieldRequiredError := by decide
  have h2 : zeroNormError ≠ gtZeroError := by decide
  simp only [objectiveFieldErrors, List.mem_append]
  constructor
  · rintro ((h | h) | h)
    · split at h <;> simp_all
    · cases w with
      | none => simp at h
      | some w => split at h <;> simp_all
    · split at h <;> simp_all
  · intro hn
    right
    simp [hn]

/-- C3: validation of a raw configuration reports every violation found —
the CVaR section's error, the all-or-nothing weight error and each
objective's field errors all appear in the returned list, never only the
first one encountered. -/
theorem lint_reports_all_violations (c : RawConfig) :
    (∀ e ∈ cvarSectionErrors c.cvar, e ∈ lint_config_dict c) ∧
    (∀ e ∈ weightAllOrNoneErrors c.objective_functions, e ∈ lint_config_dict c) ∧
    ∀ o ∈ c.objective_functions, ∀ e ∈ objectiveFieldErrors o,
      e ∈ lint_config_dict c := by
  unfold lint_config_dict lint_objective_functions
  refine ⟨?_, ?_, ?_⟩
  · intro e he
    exact List.mem_append.mpr (Or.inl he)
  · intro e he
    exact List.mem_append.mpr (Or.inr (List.mem_append.mpr (Or.inl he)))
  · intro o ho e he
    refine List.mem_append.mpr (Or.inr (List.mem_append.mpr (Or.inr ?_)))
    exact List.mem_flatten.mpr ⟨objectiveFieldErrors o, List.mem_map_of_mem _ ho, he⟩

/-- Witness for C3 on a configuration with four simultaneous violations:
all four errors are in the returned list. -/
theorem lint_reports_all_violations_witness :
    cvarMutexError ∈ lint_config_dict multiViolationConfig ∧
    weightAllOrNoneError ∈ lint_config_dict multiViolationConfig ∧
    zeroNormError ∈ lint_config_dict multiViolationConfig ∧
    fieldRequiredError ∈ lint_config_dict multiViolationConfig :=
  ⟨(lint_reports_all_violations multiViolationConfig).1 _ (by decide),
   (lint_reports_all_violations multiViolationConfig).2.1 _ (by decide),
   (lint_reports_all_violations multiViolationConfig).2.2
     ⟨some "distance_p", some 1, some 0⟩ (by decide) _ (by decide),
   (lint_reports_all_violations multiViolationConfig).2.2
     ⟨none, none, none⟩ (by decide) _ (by decide)⟩

/-- C4: when every objective declares a weight, translation gives objective
`i` the weight `w_i / Σ w_j`, keeps names index-aligned with the input
order, and an objective's output scale equals its declared normalization
when present. -/
theorem translation_normalizes_weights (objs : List ValidObjective)
    (hall : ∀ o ∈ objs, o.weight.isSome = true) (i : ℕ) (hi : i < objs.length) :
    (everest2ropt objs).names.getD i "" = (objs.getD i default).name ∧
    (everest2ropt objs).weights.getD i 0 =
      (objs.getD i default).weight.getD 0 /
        (objs.map (fun o => o.weight.getD 0)).sum ∧
    ∀ n, (objs.getD i default).normalization = some n →
      (everest2ropt objs).scales.getD i 1 = n := by
  have hcond : objs.all (fun o => o.weight.isSome) = true :=
    List.all_eq_true.mpr hall
  have hobj : objs.getD i default = objs.get ⟨i, hi⟩ := by
    rw [List.getD_eq_getElem?_getD, List.getElem?_eq_getElem hi]
    rfl
  have hmap : ∀ {β : Type} (f : ValidObjective → β) (d : β),
      (objs.map f).getD i d = f (objs.get ⟨i, hi⟩) := by
    intro β f d
    rw [List.getD_eq_getElem?_getD, List.getElem?_map, List.getElem?_eq_getElem hi]
    rfl
  simp only [everest2ropt, hcond, if_true, hobj]
  refine ⟨hmap _ _, hmap _ _, ?_⟩
  intro n hn
  rw [hmap (fun o => o.normalization.getD 1) 1, hn]
  rfl

/-- Witness for C4 on the `[1.33, 3.1]` example: the translated weights are
`1.33/4.43` and `3.1/4.43`, names keep their order, and the first scale is
the declared normalization `1`. -/
theorem translation_normalizes_weights_witness :
    (everest2ropt exampleObjectives).weights.getD 0 0 = 133/443 ∧
    (everest2ropt exampleObjectives).weights.getD 1 0 = 310/443 ∧
    (everest2ropt exampleObjectives).names.getD 0 "" = "distance_p" ∧
    (everest2ropt exampleObjectives).names.getD 1 "" = "distance_q" ∧
    (everest2ropt exampleObjectives).scales.getD 0 1 = 1 := by
  have h0 := translation_normalizes_weights exampleObjectives
    (by decide) 0 (by decide)
  have h1 := translation_normalizes_weights exampleObjectives
    (by decide) 1 (by decide)
  refine ⟨?_, ?_, ?_, ?_, ?_⟩
  · rw [h0.2.1]
    norm_num [exampleObjectives]
  · rw [h1.2.1]
    norm_num [exampleObjectives]
  · rw [h0.1]
    rfl
  · rw [h1.1]
    rfl
  · exact h0.2.2 1 rfl

/-- C5: a `run` invocation (without the removed `--kill` flag) while the
server is running only prints the monitor/kill-hint message, spawns nothing
and leaves the status record unchanged — the force-new-run flag included. -/
theorem relaunch_guard (options : RunOptions) (w : SessionWorld)
    (hkill : options.kill = false) (hrun : w.serverRunning = true) :
    run_everest options w =
      { printed := [alreadyRunningMsg options.config_file]
        statusQueried := true
        spawned := false
        record := w.record
        outcome := ExitOutcome.normal } := by
  simp [run_everest, hkill, hrun]

/-- Witness for C5 with the force-new-run flag set and the server running:
the invocation reduces to the already-running report. -/
theorem relaunch_guard_witness :
    run_everest ⟨false, true, "config.yml"⟩
        ⟨true, ⟨ServerStatus.running, none⟩, ⟨ServerStatus.completed, none⟩⟩ =
      { printed := [alreadyRunningMsg "config.yml"]
        statusQueried := true
        spawned := false
        record := ⟨ServerStatus.running, none⟩
        outcome := ExitOutcome.normal } :=
  relaunch_guard ⟨false, true, "config.yml"⟩
    ⟨true, ⟨ServerStatus.running, none⟩, ⟨ServerStatus.completed, none⟩⟩ rfl rfl

/-- C8: after a fresh run, the exit reflects the re-read status record —
`failed` raises `SystemExit` carrying the stored message, while `completed`
or `stopped` returns normally and prints the stored message when present. -/
theorem exit_reflects_terminal_status (options : RunOptions) (w : SessionWorld)
    (hkill : options.kill = false) (hrun : w.serverRunning = false)
    (hfresh : w.record.status = ServerStatus.never_run ∨ options.new_run = true) :
    (w.postRunRecord.status = ServerStatus.failed →
      (run_everest options w).outcome =
        ExitOutcome.systemExit w.postRunRecord.message) ∧
    ((w.postRunRecord.status = ServerStatus.completed ∨
        w.postRunRecord.status = ServerStatus.stopped) →
      (run_everest options w).outcome = ExitOutcome.normal ∧
      ∀ m, w.postRunRecord.message = some m →
        m ∈ (run_everest options w).printed) := by
  have hcond : (decide (w.record.status = ServerStatus.never_run) ||
      options.new_run) = true := by
    rcases hfresh with h | h <;> simp [h]
  refine ⟨?_, ?_⟩
  · intro hfail
    simp [run_everest, hkill, hrun, hcond, hfail]
  · intro hterm
    have hnotfail : ¬ w.postRunRecord.status = ServerStatus.failed := by
      rcases hterm with h | h <;> rw [h] <;> intro hc <;> cases hc
    cases hmsg : w.postRunRecord.message with
    | none =>
      constructor
      · simp [run_everest, hkill, hrun, hcond, hnotfail, hmsg]
      · intro m hm
        cases hm
    | some info =>
      constructor
      · simp [run_everest, hkill, hrun, hcond, hnotfail, hmsg]
      · intro m hm
        rw [Option.some_inj] at hm
        subst hm
        simp [run_everest, hkill, hrun, hcond, hnotfail, hmsg]

/-- Witness for C8: a fresh run ending `failed` raises `SystemExit` with the
stored message; one ending `completed` returns normally and prints it. -/
theorem exit_reflects_terminal_status_witness :
    (run_everest ⟨false, false, "c.yml"⟩
        ⟨false, ⟨ServerStatus.never_run, none⟩,
          ⟨ServerStatus.failed, some "boom"⟩⟩).outcome =
      ExitOutcome.systemExit (some "boom") ∧
    (run_everest ⟨false, false, "c.yml"⟩
        ⟨false, ⟨ServerStatus.never_run, none⟩,
          ⟨ServerStatus.completed, some "Optimization completed"⟩⟩).outcome =
      ExitOutcome.normal ∧
    "Optimization completed" ∈
      (run_everest ⟨false, false, "c.yml"⟩
        ⟨false, ⟨ServerStatus.never_run, none⟩,
          ⟨ServerStatus.completed, some "Optimization completed"⟩⟩).printed :=
  ⟨(exit_reflects_terminal_status _ _ rfl rfl (Or.inl rfl)).1 rfl,
   ((exit_reflects_terminal_status _ _ rfl rfl (Or.inl rfl)).2 (Or.inl rfl)).1,
   ((exit_reflects_terminal_status _ _ rfl rfl (Or.inl rfl)).2 (Or.inl rfl)).2
     "Optimization completed" rfl⟩

/-- C9: the removed `--kill` flag short-circuits `run_everest` — only the
deprecation message pointing at `everest kill` is printed, the status store
is never queried, nothing is spawned, the record is unchanged and the
return is normal, whatever the other flags and the server state are. -/
theorem kill_flag_no_side_effects (options : RunOptions) (w : SessionWorld)
    (hkill : options.kill = true) :
    run_everest options w =
      { printed := [deprecationMsg options.config_file]
        statusQueried := false
        spawned := false
        record := w.record
        outcome := ExitOutcome.normal } := by
  simp [run_everest, hkill]

/-- Witness for C9 with every other flag set and a running server: the
invocation still reduces to the deprecation report. -/
theorem kill_flag_no_side_effects_witness :
    run_everest ⟨true, true, "config.yml"⟩
        ⟨true, ⟨ServerStatus.running, none⟩, ⟨ServerStatus.failed, some "x"⟩⟩ =
      { printed := [deprecationMsg "config.yml"]
        statusQueried := false
        spawned := false
        record := ⟨ServerStatus.running, none⟩
        outcome := ExitOutcome.normal } :=
  kill_flag_no_side_effects ⟨true, true, "config.yml"⟩
    ⟨true, ⟨ServerStatus.running, none⟩, ⟨ServerStatus.failed, some "x"⟩⟩ rfl

/-- C10: `parse_forward_model_file` never lets a pydantic `ValidationError`
escape — a hook raising `ValidationError` or `ValueError` yields a
`ValueError` whose message is the caller's template formatted with the
underlying error details. -/
theorem no_validation_error_escapes {α : Type} (hookOutcome : HookResult α)
    (message : String) :
    (∀ errs, parse_forward_model_file hookOutcome message ≠
      Except.error (PyException.validationError errs)) ∧
    (∀ ve, hookOutcome = HookResult.validationError ve →
      parse_forward_model_file hookOutcome message =
        Except.error (PyException.valueError (formatTemplate message
          (String.intercalate "\n\t\t" (ve.map formatDetail))))) ∧
    ∀ m, hookOutcome = HookResult.valueError m →
      parse_forward_model_file hookOutcome message =
        Except.error (PyException.valueError (formatTemplate message m)) := by
  cases hookOutcome <;>
    simp [parse_forward_model_file]

/-- Witness for C10 on a one-entry `ValidationError`: the escaping exception
is the `ValueError` holding the formatted template. -/
theorem no_validation_error_escapes_witness :
    parse_forward_model_file
        (HookResult.validationError (α := Unit)
          [⟨"path", "bad.yml", "value is not a valid integer"⟩])
        "Jobs section not valid: {error}" =
      Except.error (PyException.valueError
        (formatTemplate "Jobs section not valid: {error}"
          "path: bad.yml -> value is not a valid integer")) :=
  (no_validation_error_escapes
      (HookResult.validationError (α := Unit)
        [⟨"path", "bad.yml", "value is not a valid integer"⟩])
      "Jobs section not valid: {error}").2.1
    [⟨"path", "bad.yml", "value is not a valid integer"⟩] rfl

end Everest
